import Mathlib

/-!
Shallow embedding of the USB-Shield synchronization controller
(`App.tsx`): the component state, the Tauri command gateway, and the
async operations `refreshDevices`, `refreshTrustedDevices`,
`checkAutoblockMode`, `toggleDeviceTrust`, `toggleAutoblock`,
`blockAllPorts`, `unblockPorts`, and the mount-time `initializeApp`.

Each operation is a state transformer `Gateway → AppState → AppState × List Call`;
the second component records, in invocation order, which gateway commands
the operation issued.  A `Gateway` fixes the outcome of every remote
command (`Except.ok` result or `Except.error message`), matching the fact
that each `invoke` either resolves with a value or rejects with a
displayable message.  The concurrent `Promise.all` fan-outs interleave
their per-fetch write blocks; where settlement order is observable (the
initial triad) it is an explicit parameter.
-/

/-- `UsbDeviceInfo` from `types.ts`. -/
structure UsbDeviceInfo where
  vendor_id : Nat
  product_id : Nat
  manufacturer : Option String
  product : Option String
  serial_number : Option String
  port_number : Option Nat
  connected : Bool
  trusted : Bool
  deriving Repr, DecidableEq

/-- `TrustedDevice` from `types.ts`: a `[vendor_id, product_id]` pair. -/
abbrev TrustedDevice := Nat × Nat

/-- The `blockStatus` state: `"idle" | "blocking" | "unblocking"`. -/
inductive BlockStatus where
  | idle
  | blocking
  | unblocking
  deriving Repr, DecidableEq

/-- The component's state hooks: `devices`, `trustedDevices`,
`autoblockEnabled`, `error`, `isLoading`, `blockStatus`. -/
structure AppState where
  devices : List UsbDeviceInfo
  trustedDevices : List TrustedDevice
  autoblockEnabled : Bool
  error : Option String
  isLoading : Bool
  blockStatus : BlockStatus
  deriving Repr, DecidableEq

/-- The initial state of the hooks: `useState([])`, `useState([])`,
`useState(true)`, `useState(null)`, `useState(true)`, `useState("idle")`. -/
def initState : AppState :=
  { devices := []
    trustedDevices := []
    autoblockEnabled := true
    error := none
    isLoading := true
    blockStatus := BlockStatus.idle }

/-- One gateway interaction, tagged with its arguments; operations record
the calls they issue in invocation order. -/
inductive Call where
  | get_usb_devices
  | get_trusted_devices
  | get_autoblock_mode
  | add_trusted_device (vendorId productId : Nat)
  | remove_trusted_device (vendorId productId : Nat)
  | set_autoblock_mode (enabled : Bool)
  | block_all_usb_ports
  | restart_usb_service
  | unblock_usb_port
  | listen_usb_device_changed
  deriving Repr, DecidableEq

/-- The command gateway: the outcome of each remote command during one
operation.  `Except.error msg` models a rejected `invoke` promise whose
displayable message is `msg` (the code's
`err instanceof Error ? err.message : String(err)` both yield `msg`). -/
structure Gateway where
  get_usb_devices : Except String (List UsbDeviceInfo)
  get_trusted_devices : Except String (List TrustedDevice)
  get_autoblock_mode : Except String Bool
  add_trusted_device : Nat → Nat → Except String Unit
  remove_trusted_device : Nat → Nat → Except String Unit
  set_autoblock_mode : Bool → Except String Unit
  block_all_usb_ports : Except String Unit
  restart_usb_service : Except String Unit
  unblock_usb_port : Except String Unit
  listen_usb_device_changed : Except String Unit

/-- `refreshDevices` (lines 49–61): on success `setDevices(result)` then
`setError(null)`; on failure `setError("Failed to fetch devices: " + msg)`.
Never throws to its caller. -/
def refreshDevices (g : Gateway) (s : AppState) : AppState × List Call :=
  match g.get_usb_devices with
  | Except.ok result =>
      ({ s with devices := result, error := none }, [Call.get_usb_devices])
  | Except.error err =>
      ({ s with error := some ("Failed to fetch devices: " ++ err) },
       [Call.get_usb_devices])

/-- `refreshTrustedDevices` (lines 63–74): on success
`setTrustedDevices(result)` (no write to `error`); on failure
`setError("Failed to fetch trusted devices: " + msg)`. Never throws. -/
def refreshTrustedDevices (g : Gateway) (s : AppState) : AppState × List Call :=
  match g.get_trusted_devices with
  | Except.ok result =>
      ({ s with trustedDevices := result }, [Call.get_trusted_devices])
  | Except.error err =>
      ({ s with error := some ("Failed to fetch trusted devices: " ++ err) },
       [Call.get_trusted_devices])

/-- `checkAutoblockMode` (lines 76–87): on success
`setAutoblockEnabled(result)`; on failure
`setError("Failed to get autoblock status: " + msg)`. Never throws. -/
def checkAutoblockMode (g : Gateway) (s : AppState) : AppState × List Call :=
  match g.get_autoblock_mode with
  | Except.ok result =>
      ({ s with autoblockEnabled := result }, [Call.get_autoblock_mode])
  | Except.error err =>
      ({ s with error := some ("Failed to get autoblock status: " ++ err) },
       [Call.get_autoblock_mode])

/-- `toggleDeviceTrust` (lines 89–110): `remove_trusted_device` if the
device is trusted, else `add_trusted_device`; on success
`Promise.all([refreshDevices(), refreshTrustedDevices()])` (each refetch
catches its own failure, so the outer catch fires only for the add/remove
call); on failure `setError("Failed to update device trust: " + msg)`. -/
def toggleDeviceTrust (g : Gateway) (device : UsbDeviceInfo) (s : AppState) :
    AppState × List Call :=
  if device.trusted then
    match g.remove_trusted_device device.vendor_id device.product_id with
    | Except.error err =>
        ({ s with error := some ("Failed to update device trust: " ++ err) },
         [Call.remove_trusted_device device.vendor_id device.product_id])
    | Except.ok _ =>
        let p1 := refreshDevices g s
        let p2 := refreshTrustedDevices g p1.1
        (p2.1, Call.remove_trusted_device device.vendor_id device.product_id ::
          (p1.2 ++ p2.2))
  else
    match g.add_trusted_device device.vendor_id device.product_id with
    | Except.error err =>
        ({ s with error := some ("Failed to update device trust: " ++ err) },
         [Call.add_trusted_device device.vendor_id device.product_id])
    | Except.ok _ =>
        let p1 := refreshDevices g s
        let p2 := refreshTrustedDevices g p1.1
        (p2.1, Call.add_trusted_device device.vendor_id device.product_id ::
          (p1.2 ++ p2.2))

/-- `toggleAutoblock` (lines 112–124): `newMode = !autoblockEnabled`;
`set_autoblock_mode { enabled: newMode }`; `setAutoblockEnabled(newMode)`
only after the call resolves; on failure
`setError("Failed to toggle autoblock: " + msg)` and no write to the flag. -/
def toggleAutoblock (g : Gateway) (s : AppState) : AppState × List Call :=
  let newMode := !s.autoblockEnabled
  match g.set_autoblock_mode newMode with
  | Except.ok _ =>
      ({ s with autoblockEnabled := newMode }, [Call.set_autoblock_mode newMode])
  | Except.error err =>
      ({ s with error := some ("Failed to toggle autoblock: " ++ err) },
       [Call.set_autoblock_mode newMode])

/-- The `try` body of `blockAllPorts` (lines 128–134):
`block_all_usb_ports`; then `restart_usb_service`; then
`refreshDevices()`; then `setError(null)`; the catch sets
`setError(String(err))` — the raw message, no prefix. -/
def blockAllPortsTry (g : Gateway) (s : AppState) : AppState × List Call :=
  match g.block_all_usb_ports with
  | Except.error err =>
      ({ s with error := some err }, [Call.block_all_usb_ports])
  | Except.ok _ =>
      match g.restart_usb_service with
      | Except.error err =>
          ({ s with error := some err },
           [Call.block_all_usb_ports, Call.restart_usb_service])
      | Except.ok _ =>
          let p := refreshDevices g s
          ({ p.1 with error := none },
           Call.block_all_usb_ports :: Call.restart_usb_service :: p.2)

/-- `blockAllPorts` (lines 126–138): `setBlockStatus("blocking")` first,
the `try` body, and a `finally` that runs `setBlockStatus("idle")` on
every path out of the body. -/
def blockAllPorts (g : Gateway) (s : AppState) : AppState × List Call :=
  let p := blockAllPortsTry g { s with blockStatus := BlockStatus.blocking }
  ({ p.1 with blockStatus := BlockStatus.idle }, p.2)

/-- `unblockPorts` (lines 140–151): `unblock_usb_port`, then
`refreshDevices()` (which catches its own failure); the catch fires only
for the unblock call and sets `setError("Failed to unblock ports: " + msg)`.
No write to `blockStatus` anywhere in this operation. -/
def unblockPorts (g : Gateway) (s : AppState) : AppState × List Call :=
  match g.unblock_usb_port with
  | Except.error err =>
      ({ s with error := some ("Failed to unblock ports: " ++ err) },
       [Call.unblock_usb_port])
  | Except.ok _ =>
      let p := refreshDevices g s
      (p.1, Call.unblock_usb_port :: p.2)

/-- Which of the three startup fetches settles (applies its write block);
`Promise.all` lets the three settle in any interleaving. -/
inductive Fetch where
  | devices
  | trusted
  | policy
  deriving Repr, DecidableEq

/-- Apply the write block of one settled startup fetch. -/
def applyFetch (g : Gateway) (s : AppState) : Fetch → AppState
  | Fetch.devices => (refreshDevices g s).1
  | Fetch.trusted => (refreshTrustedDevices g s).1
  | Fetch.policy => (checkAutoblockMode g s).1

/-- The initial `Promise.all([refreshDevices(), refreshTrustedDevices(),
checkAutoblockMode()])` (lines 23–27): the three write blocks land in
settlement order `order`.  Each fetch catches its own failure, so the
combined promise always resolves. -/
def runTriad (g : Gateway) (order : List Fetch) (s : AppState) : AppState :=
  order.foldl (applyFetch g) s

/-- The three invocations of the triad, in the order the `Promise.all`
array issues them. -/
def triadCalls : List Call :=
  [Call.get_usb_devices, Call.get_trusted_devices, Call.get_autoblock_mode]

/-- The handler registered with `listen("usb-device-changed", ...)`
(line 29) is `refreshDevices` itself. -/
def usbChangeHandler : Gateway → AppState → AppState × List Call :=
  refreshDevices

/-- `initializeApp` (lines 20–36): await the triad, then
`listen("usb-device-changed", refreshDevices)`; the catch records the
rejection's message; the `finally` runs `setIsLoading(false)` on both
paths. -/
def initializeApp (g : Gateway) (order : List Fetch) (s : AppState) :
    AppState × List Call :=
  let s1 := runTriad g order s
  match g.listen_usb_device_changed with
  | Except.ok _ =>
      ({ s1 with isLoading := false }, triadCalls ++ [Call.listen_usb_device_changed])
  | Except.error err =>
      ({ s1 with error := some err, isLoading := false },
       triadCalls ++ [Call.listen_usb_device_changed])

/-- A gateway on which every command succeeds with a trivial payload. -/
def gAllOk : Gateway :=
  { get_usb_devices := Except.ok []
    get_trusted_devices := Except.ok []
    get_autoblock_mode := Except.ok true
    add_trusted_device := fun _ _ => Except.ok ()
    remove_trusted_device := fun _ _ => Except.ok ()
    set_autoblock_mode := fun _ => Except.ok ()
    block_all_usb_ports := Except.ok ()
    restart_usb_service := Except.ok ()
    unblock_usb_port := Except.ok ()
    listen_usb_device_changed := Except.ok () }

/-- A gateway on which only the autoblock-policy fetch fails. -/
def gDown : Gateway :=
  { gAllOk with get_autoblock_mode := Except.error "down" }

/-- A sample connected, untrusted device (the spec's example Logitech
receiver, vendor 0x046D product 0xC52B). -/
def devEx : UsbDeviceInfo :=
  { vendor_id := 0x046D
    product_id := 0xC52B
    manufacturer := none
    product := none
    serial_number := none
    port_number := none
    connected := true
    trusted := false }

/-- A gateway on which the device and policy fetches succeed but the
trusted-pair fetch fails. -/
def g7 : Gateway :=
  { gAllOk with
    get_usb_devices := Except.ok [devEx]
    get_trusted_devices := Except.error "t"
    get_autoblock_mode := Except.ok false }

/-! ### Helper lemmas -/

theorem refreshDevices_calls (g : Gateway) (s : AppState) :
    (refreshDevices g s).2 = [Call.get_usb_devices] := by
  unfold refreshDevices
  cases g.get_usb_devices <;> rfl

theorem refreshTrustedDevices_calls (g : Gateway) (s : AppState) :
    (refreshTrustedDevices g s).2 = [Call.get_trusted_devices] := by
  unfold refreshTrustedDevices
  cases g.get_trusted_devices <;> rfl

theorem refreshDevices_blockStatus (g : Gateway) (s : AppState) :
    (refreshDevices g s).1.blockStatus = s.blockStatus := by
  unfold refreshDevices
  cases g.get_usb_devices <;> rfl

/-! ### Claim theorems -/

/-- Claim C2: `blockAllPorts` sets the status to `blocking` at the start,
the status stays `blocking` throughout the `try` body, and whichever way
the body concludes (both remote steps succeed, the second fails, or the
first fails) the `finally` leaves the status at `idle` when the call
returns. -/
theorem blockAllPorts_status_bracket (g : Gateway) (s : AppState) :
    (blockAllPortsTry g { s with blockStatus := BlockStatus.blocking }).1.blockStatus
        = BlockStatus.blocking ∧
    (blockAllPorts g s).1.blockStatus = BlockStatus.idle := by
  constructor
  · unfold blockAllPortsTry
    cases g.block_all_usb_ports with
    | error e => rfl
    | ok u =>
        cases g.restart_usb_service with
        | error e => rfl
        | ok u =>
            simp only
            rw [show (({ s with blockStatus := BlockStatus.blocking } : AppState))
              = { s with blockStatus := BlockStatus.blocking } from rfl]
            exact refreshDevices_blockStatus g _
  · rfl

/-- Claim C3: `blockAllPorts` invokes `block_all_usb_ports` first and
`restart_usb_service` only if that first call succeeds; on either
failure the error slot is set to exactly the raw failure message (no
operation-name prefix) and the remaining steps (restart and/or the
device re-fetch) are not performed. -/
theorem blockAllPorts_sequencing (g : Gateway) (s : AppState) :
    match g.block_all_usb_ports, g.restart_usb_service with
    | Except.error e, _ =>
        (blockAllPorts g s).2 = [Call.block_all_usb_ports] ∧
        (blockAllPorts g s).1.error = some e
    | Except.ok _, Except.error e =>
        (blockAllPorts g s).2 = [Call.block_all_usb_ports, Call.restart_usb_service] ∧
        (blockAllPorts g s).1.error = some e
    | Except.ok _, Except.ok _ =>
        (blockAllPorts g s).2 =
          [Call.block_all_usb_ports, Call.restart_usb_service, Call.get_usb_devices] := by
  cases hb : g.block_all_usb_ports with
  | error e =>
      simp [hb, blockAllPorts, blockAllPortsTry]
  | ok u =>
      cases hr : g.restart_usb_service with
      | error e =>
          simp [hb, hr, blockAllPorts, blockAllPortsTry]
      | ok v =>
          simp [hb, hr, blockAllPorts, blockAllPortsTry, refreshDevices_calls g]

/-- Claim C8: `unblockPorts` never writes the operation-status field:
whether the unblock call succeeds or fails, `blockStatus` after the call
equals `blockStatus` before it. -/
theorem unblockPorts_status_frame (g : Gateway) (s : AppState) :
    (unblockPorts g s).1.blockStatus = s.blockStatus := by
  unfold unblockPorts
  cases g.unblock_usb_port with
  | error e => rfl
  | ok u => exact refreshDevices_blockStatus g s

/-- Claim C5: with current policy value `b = s.autoblockEnabled`,
`toggleAutoblock` invokes `set_autoblock_mode` with `enabled = !b`; on
success the whole resulting state is `s` with the flag set to `!b` (so
no other field, and nothing before the call resolves, is written); on
failure the resulting state is `s` with only the error slot set to a
message prefixed `"Failed to toggle autoblock:"`, the flag staying `b`. -/
theorem toggleAutoblock_spec (g : Gateway) (s : AppState) :
    match g.set_autoblock_mode (!s.autoblockEnabled) with
    | Except.ok _ =>
        toggleAutoblock g s =
          ({ s with autoblockEnabled := !s.autoblockEnabled },
           [Call.set_autoblock_mode (!s.autoblockEnabled)])
    | Except.error e =>
        toggleAutoblock g s =
          ({ s with error := some ("Failed to toggle autoblock: " ++ e) },
           [Call.set_autoblock_mode (!s.autoblockEnabled)]) := by
  cases h : g.set_autoblock_mode (!s.autoblockEnabled) with
  | ok u => simp [h, toggleAutoblock]
  | error e => simp [h, toggleAutoblock]

/-- Claim C4: `toggleDeviceTrust` invokes `remove_trusted_device` with the
device's vendor and product ids when the device is trusted, otherwise
`add_trusted_device` with them; on success it then re-fetches the full
device list and the full trusted-pair list (both fetches are issued, in
the `Promise.all` fan-out); on failure of the add/remove call the
resulting state is the input state with only the error slot set to a
message prefixed `"Failed to update device trust:"` — devices,
trusted pairs, and the policy flag unchanged. -/
theorem toggleDeviceTrust_spec (g : Gateway) (d : UsbDeviceInfo) (s : AppState) :
    match d.trusted, g.remove_trusted_device d.vendor_id d.product_id,
        g.add_trusted_device d.vendor_id d.product_id with
    | true, Except.error e, _ =>
        toggleDeviceTrust g d s =
          ({ s with error := some ("Failed to update device trust: " ++ e) },
           [Call.remove_trusted_device d.vendor_id d.product_id])
    | true, Except.ok _, _ =>
        (toggleDeviceTrust g d s).2 =
          [Call.remove_trusted_device d.vendor_id d.product_id,
           Call.get_usb_devices, Call.get_trusted_devices]
    | false, _, Except.error e =>
        toggleDeviceTrust g d s =
          ({ s with error := some ("Failed to update device trust: " ++ e) },
           [Call.add_trusted_device d.vendor_id d.product_id])
    | false, _, Except.ok _ =>
        (toggleDeviceTrust g d s).2 =
          [Call.add_trusted_device d.vendor_id d.product_id,
           Call.get_usb_devices, Call.get_trusted_devices] := by
  cases ht : d.trusted with
  | true =>
      cases hr : g.remove_trusted_device d.vendor_id d.product_id with
      | error e => simp [ht, hr, toggleDeviceTrust]
      | ok u =>
          simp [ht, hr, toggleDeviceTrust, refreshDevices_calls,
            refreshTrustedDevices_calls]
  | false =>
      cases ha : g.add_trusted_device d.vendor_id d.product_id with
      | error e => simp [ht, ha, toggleDeviceTrust]
      | ok u =>
          simp [ht, ha, toggleDeviceTrust, refreshDevices_calls,
            refreshTrustedDevices_calls]

/-- Claim C1, counterexample: on a gateway whose trusted-pair fetch
succeeds, `refreshTrustedDevices` run from a state with a pending error
leaves that error in place — a successful trusted-pair fetch does not
clear the error slot to absent. -/
theorem trusted_fetch_success_keeps_error_cex :
    gAllOk.get_trusted_devices = Except.ok [] ∧
    (refreshTrustedDevices gAllOk { initState with error := some "boom" }).1.error
      = some "boom" := by
  exact ⟨rfl, rfl⟩

/-- Claim C1, amended: for every prior error state, a successful device
fetch (`refreshDevices` with a gateway success) clears the error slot to
absent, while a successful trusted-pair fetch (`refreshTrustedDevices`
with a gateway success) leaves the error slot exactly as it was. -/
theorem refresh_error_clearing (g : Gateway) (s : AppState) :
    (∀ d, g.get_usb_devices = Except.ok d → (refreshDevices g s).1.error = none) ∧
    (∀ ts, g.get_trusted_devices = Except.ok ts →
      (refreshTrustedDevices g s).1.error = s.error) := by
  constructor
  · intro d hd
    simp [refreshDevices, hd]
  · intro ts ht
    simp [refreshTrustedDevices, ht]

/-- Claim C1, witness: both parts of `refresh_error_clearing` at the
all-success gateway and a state carrying the pending error `"boom"`. -/
theorem refresh_error_clearing_witness :
    (refreshDevices gAllOk { initState with error := some "boom" }).1.error = none ∧
    (refreshTrustedDevices gAllOk { initState with error := some "boom" }).1.error
      = ({ initState with error := some "boom" } : AppState).error := by
  exact ⟨(refresh_error_clearing gAllOk _).1 [] rfl,
    (refresh_error_clearing gAllOk _).2 [] rfl⟩

/-- The three observable slots of the triad result: device list, policy
flag, and error slot. -/
def triadObs (g : Gateway) (order : List Fetch) (s : AppState)
    (d : List UsbDeviceInfo) (b : Bool) (e : Option String) : Prop :=
  (runTriad g order s).devices = d ∧
  (runTriad g order s).autoblockEnabled = b ∧
  (runTriad g order s).error = e

/-- Claim C7, counterexample: with the device fetch succeeding, the
trusted-pair fetch failing and the policy fetch succeeding, the
settlement order trusted–devices–policy leaves the error slot absent
(the later device-fetch success clears the trusted-devices message), so
the claimed outcome does not hold regardless of settlement order. -/
theorem triad_order_cex :
    g7.get_usb_devices = Except.ok [devEx] ∧
    g7.get_trusted_devices = Except.error "t" ∧
    g7.get_autoblock_mode = Except.ok false ∧
    (runTriad g7 [Fetch.trusted, Fetch.devices, Fetch.policy] initState).error
      = none := by
  exact ⟨rfl, rfl, rfl, rfl⟩

/-- Claim C7, amended: in an initial triad where the trusted-pair fetch
fails and the other two succeed, the device list and policy flag hold
the fetched values in every settlement order; the error slot holds the
trusted-devices message exactly in the orders where the device fetch
settles before the trusted-pair fetch, and is absent in the orders where
the device fetch settles after it (its success clears the error). -/
theorem triad_trusted_failure (g : Gateway) (s : AppState)
    (d : List UsbDeviceInfo) (e : String) (b : Bool)
    (hd : g.get_usb_devices = Except.ok d)
    (ht : g.get_trusted_devices = Except.error e)
    (hb : g.get_autoblock_mode = Except.ok b) :
    triadObs g [Fetch.devices, Fetch.trusted, Fetch.policy] s d b
        (some ("Failed to fetch trusted devices: " ++ e)) ∧
    triadObs g [Fetch.devices, Fetch.policy, Fetch.trusted] s d b
        (some ("Failed to fetch trusted devices: " ++ e)) ∧
    triadObs g [Fetch.policy, Fetch.devices, Fetch.trusted] s d b
        (some ("Failed to fetch trusted devices: " ++ e)) ∧
    triadObs g [Fetch.trusted, Fetch.devices, Fetch.policy] s d b none ∧
    triadObs g [Fetch.trusted, Fetch.policy, Fetch.devices] s d b none ∧
    triadObs g [Fetch.policy, Fetch.trusted, Fetch.devices] s d b none := by
  refine ⟨?_, ?_, ?_, ?_, ?_, ?_⟩ <;>
    simp [triadObs, runTriad, applyFetch, refreshDevices,
      refreshTrustedDevices, checkAutoblockMode, hd, ht, hb]

/-- Claim C7, witness: `triad_trusted_failure` at the concrete gateway
`g7` (device fetch yields `[devEx]`, trusted-pair fetch fails with
`"t"`, policy fetch yields `false`), starting from the initial state. -/
theorem triad_trusted_failure_witness :
    triadObs g7 [Fetch.devices, Fetch.trusted, Fetch.policy] initState [devEx]
        false (some ("Failed to fetch trusted devices: " ++ "t")) ∧
    triadObs g7 [Fetch.trusted, Fetch.devices, Fetch.policy] initState [devEx]
        false none := by
  have h := triad_trusted_failure g7 initState [devEx] "t" false rfl rfl rfl
  exact ⟨h.1, h.2.2.2.1⟩

/-- Claim C6: `initializeApp` issues the three triad fetches and then the
`usb-device-changed` subscription as its last gateway interaction, after
all three; the registered handler performs the device refresh alone —
its only call is `get_usb_devices`, and it leaves the trusted-pair list,
the policy flag, the loading flag and the operation status untouched;
the loading flag is flipped to ready (`false`) whether the subscription
attempt succeeds or fails. -/
theorem initializeApp_spec (g : Gateway) (order : List Fetch) (s : AppState) :
    (initializeApp g order s).2 =
      [Call.get_usb_devices, Call.get_trusted_devices, Call.get_autoblock_mode,
       Call.listen_usb_device_changed] ∧
    (initializeApp g order s).1.isLoading = false ∧
    (usbChangeHandler g s).2 = [Call.get_usb_devices] ∧
    (usbChangeHandler g s).1.trustedDevices = s.trustedDevices ∧
    (usbChangeHandler g s).1.autoblockEnabled = s.autoblockEnabled ∧
    (usbChangeHandler g s).1.isLoading = s.isLoading ∧
    (usbChangeHandler g s).1.blockStatus = s.blockStatus := by
  refine ⟨?_, ?_, ?_, ?_, ?_, ?_, ?_⟩
  · unfold initializeApp
    cases g.listen_usb_device_changed <;> rfl
  · unfold initializeApp
    cases g.listen_usb_device_changed <;> rfl
  all_goals
    unfold usbChangeHandler refreshDevices
  all_goals
    cases g.get_usb_devices <;> rfl

/-- Claim C9: the policy flag starts `true` before any successful policy
fetch; a failing startup `get_autoblock_mode` leaves it `true`; and the
first `toggleAutoblock` invoked in that state sends
`set_autoblock_mode` with `enabled = false`. -/
theorem autoblock_default_true (g : Gateway) (e : String)
    (h : g.get_autoblock_mode = Except.error e) :
    initState.autoblockEnabled = true ∧
    (checkAutoblockMode g initState).1.autoblockEnabled = true ∧
    (toggleAutoblock g (checkAutoblockMode g initState).1).2 =
      [Call.set_autoblock_mode false] := by
  refine ⟨rfl, ?_, ?_⟩
  · simp [checkAutoblockMode, h, initState]
  · cases hs : g.set_autoblock_mode false <;>
      simp [checkAutoblockMode, toggleAutoblock, h, hs, initState]

/-- Claim C9, witness: `autoblock_default_true` at the gateway `gDown`,
whose policy fetch fails with `"down"`. -/
theorem autoblock_default_true_witness :
    initState.autoblockEnabled = true ∧
    (checkAutoblockMode gDown initState).1.autoblockEnabled = true ∧
    (toggleAutoblock gDown (checkAutoblockMode gDown initState).1).2 =
      [Call.set_autoblock_mode false] :=
  autoblock_default_true gDown "down" rfl

/-- Claim C10: when `block_all_usb_ports`, `restart_usb_service` and the
subsequent device re-fetch all succeed, `blockAllPorts` leaves the error
slot absent, whatever error was pending in the starting state. -/
theorem blockAllPorts_success_clears_error (g : Gateway) (s : AppState)
    (d : List UsbDeviceInfo)
    (h1 : g.block_all_usb_ports = Except.ok ())
    (h2 : g.restart_usb_service = Except.ok ())
    (h3 : g.get_usb_devices = Except.ok d) :
    (blockAllPorts g s).1.error = none := by
  simp [blockAllPorts, blockAllPortsTry, refreshDevices, h1, h2, h3]

/-- Claim C10, witness: `blockAllPorts_success_clears_error` at the
all-success gateway, starting from a state with a pending stale error. -/
theorem blockAllPorts_success_clears_error_witness :
    (blockAllPorts gAllOk { initState with error := some "stale" }).1.error
      = none :=
  blockAllPorts_success_clears_error gAllOk _ [] rfl rfl rfl
